import Mathlib

/-!
Shallow embedding of the topology resolution and rendering core of
`pi-hil-testing-utils` (scripts/resolve_target.py and
scripts/generate_places_yaml.py), together with theorems settling the
specification claims about it.

The topology document (labnet.yaml) is modelled as an in-memory structure:
Python dicts preserve insertion order, so each mapping becomes an
association list in stored order, looked up first-match.
-/

/-- One entry of the `devices` mapping.  In the YAML/Python data a
`target_file` key may be absent, present with a null value, or present with a
string value; `Option (Option String)` keeps the three cases apart exactly as
`dict.get` sees them (`none` = key absent, `some none` = present null,
`some (some s)` = present string). -/
structure DeviceSpec where
  target_file : Option (Option String)
deriving DecidableEq

/-- One entry of the `labs` mapping: `device_instances` maps a base device
name to its list of instance aliases, in stored order. -/
structure Lab where
  device_instances : List (String × List String)
deriving DecidableEq

/-- The parsed labnet.yaml document: `devices` and `labs` mappings as
ordered association lists. -/
structure Topology where
  devices : List (String × DeviceSpec)
  labs : List (String × Lab)
deriving DecidableEq

/-- Python `str(x)` as an f-string renders an optional string: `None` prints
as the text "None". -/
def pyFormatOptStr : Option String → String
  | none => "None"
  | some s => s

/-- Computes `device_config.get('target_file', fallback)` as it is then
interpolated into the f-string: an absent key yields the fallback name, a
present value (even null or empty) is used as-is. -/
def targetStem (device_config : DeviceSpec) (fallback : String) : String :=
  match device_config.target_file with
  | none => fallback
  | some v => pyFormatOptStr v

/-- The f-string `f"targets/\x7btarget_name\x7d.yaml"` applied to the stem
computed from a device config and its fallback name. -/
def targetPath (device_config : DeviceSpec) (fallback : String) : String :=
  "targets/" ++ targetStem device_config fallback ++ ".yaml"

/-- Inner loop of the instance-match phase (`for base_device, instances in
device_instances.items()`): the first base device whose alias list contains
`device_name` AND which is itself a key of `devices` yields a path; a
matching pair whose base device is absent from `devices` is skipped and the
scan continues. -/
def searchLab (devices : List (String × DeviceSpec)) (device_name : String) :
    List (String × List String) → Option String
  | [] => none
  | (base_device, instances) :: rest =>
    if device_name ∈ instances then
      match devices.lookup base_device with
      | some device_config => some (targetPath device_config base_device)
      | none => searchLab devices device_name rest
    else
      searchLab devices device_name rest

/-- Outer loop of the instance-match phase (`for lab_name, lab_config in
labs.items()`), labs scanned in document order. -/
def searchInstances (devices : List (String × DeviceSpec)) (device_name : String) :
    List (String × Lab) → Option String
  | [] => none
  | (_, lab_config) :: rest =>
    match searchLab devices device_name lab_config.device_instances with
    | some target_file => some target_file
    | none => searchInstances devices device_name rest

/-- The diagnostic printed to stderr before `sys.exit(1)` when neither phase
finds the identifier. -/
def notFoundMessage (device_name : String) : String :=
  "Error: Device or instance \x27" ++ device_name ++ "\x27 not found in labnet.yaml"

/-- `resolve_target_file` from scripts/resolve_target.py (the pure core,
after the document has been loaded): direct device-name match first, then
the instance-alias scan, else the reported not-found failure. -/
def resolve_target_file (labnet : Topology) (device_name : String) :
    Except String String :=
  match labnet.devices.lookup device_name with
  | some device_config => Except.ok (targetPath device_config device_name)
  | none =>
    match searchInstances labnet.devices device_name labnet.labs with
    | some target_file => Except.ok target_file
    | none => Except.error (notFoundMessage device_name)

example : resolve_target_file
    ⟨[("linksys_e8450", ⟨none⟩)],
     [("labgrid-fcefyn", ⟨[("linksys_e8450", ["belkin_rt3200_1"])]⟩)]⟩
    "belkin_rt3200_1" = Except.ok "targets/linksys_e8450.yaml" := rfl

example : resolve_target_file ⟨[("foo", ⟨some (some "bar")⟩)], []⟩ "foo" =
    Except.ok "targets/bar.yaml" := rfl

example : resolve_target_file ⟨[("foo", ⟨some (some "")⟩)], []⟩ "foo" =
    Except.ok "targets/.yaml" := rfl

example : resolve_target_file ⟨[], [("lab1", ⟨[("ghost", ["x"])]⟩)]⟩ "x" =
    Except.error (notFoundMessage "x") := rfl

/-- The `ansible_date_time` mapping passed to the template: a single key
`epoch`, bound to `int(datetime.now().timestamp())`. -/
structure AnsibleDateTime where
  epoch : Int
deriving DecidableEq

/-- The keyword arguments of `template.render(...)` in
scripts/generate_places_yaml.py: the full parsed topology, the selected lab
name, and the timestamp mapping. -/
structure RenderContext where
  labnet : Topology
  inventory_hostname : String
  ansible_date_time : AnsibleDateTime
deriving DecidableEq

/-- Python `', '.join(xs)`: the elements in order, separated by a comma and
a space. -/
def joinComma : List String → String
  | [] => ""
  | [s] => s
  | s :: rest => s ++ ", " ++ joinComma rest

/-- The two stderr lines printed when the requested lab is not a key of
`labnet['labs']`: the failure notice naming the lab, then the enumeration of
all available lab names. -/
def unknownLabMessage (labnet : Topology) (lab_name : String) : String :=
  "Error: Lab \x27" ++ lab_name ++ "\x27 not found in labnet.yaml\n" ++
    "Available labs: " ++ joinComma (labnet.labs.map Prod.fst)

/-- `generate_places_yaml` from scripts/generate_places_yaml.py, restricted
to its pure rendering core: after the topology is loaded, the lab name is
verified against `labnet['labs']` (failing with the enumerating diagnostic
and exit 1 before anything is rendered); on success the template engine — an
external collaborator, modelled as a function on the context — is applied to
the context built from the topology, the lab name and the captured
timestamp, and its output is returned verbatim. -/
def generate_places_yaml (labnet : Topology) (lab_name : String)
    (template : RenderContext → String) (now : Int) : Except String String :=
  if (labnet.labs.lookup lab_name).isSome then
    Except.ok (template
      { labnet := labnet, inventory_hostname := lab_name,
        ansible_date_time := { epoch := now } })
  else
    Except.error (unknownLabMessage labnet lab_name)

/-- Splitting a character list at every occurrence of a separator character;
Python `s.split(sep)` for a one-character separator (empty pieces kept, the
empty string splitting to one empty piece). -/
def splitOnChar (sep : Char) : List Char → List (List Char)
  | [] => [[]]
  | c :: rest =>
    match splitOnChar sep rest with
    | [] => [[c]]
    | piece :: pieces =>
      if c == sep then [] :: piece :: pieces else (c :: piece) :: pieces

/-- Python `places_yaml.split('\n')` as used by the reporting step. -/
def pySplit (sep : Char) (s : String) : List String :=
  (splitOnChar sep s.data).map String.mk

/-- Occurrence of one character list inside another, at any position. -/
def occursIn (needle : List Char) : List Char → Bool
  | [] => needle.isPrefixOf []
  | c :: rest => needle.isPrefixOf (c :: rest) || occursIn needle rest

/-- Python `needle in line` (substring containment). -/
def pyInStr (needle line : String) : Bool :=
  occursIn needle.data line.data

/-- Python `line.strip()`: whitespace removed from both ends. -/
def pyStrip (s : String) : String :=
  String.mk (((s.data.dropWhile Char.isWhitespace).reverse.dropWhile
    Char.isWhitespace).reverse)

/-- Python `s.endswith(suffix)`. -/
def pyEndsWith (suffix s : String) : Bool :=
  suffix.data.isSuffixOf s.data

/-- The predicate of the reporting step, applied to each line of the
rendered text: `line.strip().endswith(':') and 'labgrid-' in line`. -/
def isPlaceLine (line : String) : Bool :=
  pyEndsWith ":" (pyStrip line) && pyInStr "labgrid-" line

/-- The `Places generated` count: `sum(1 for line in places_yaml.split('\n')
if line.strip().endswith(':') and 'labgrid-' in line)`. -/
def place_count (places_yaml : String) : Nat :=
  (pySplit (Char.ofNat 10) places_yaml).countP (fun line => isPlaceLine line)

/-- Python `s.rstrip(':')`: removes every trailing colon. -/
def rstripColon (s : String) : String :=
  String.mk (s.data.reverse.dropWhile (fun c => c == ':')).reverse

/-- The `Generated places` listing: the names printed by the final loop, one
per line of the rendered text satisfying the same predicate, each shown as
`line.strip().rstrip(':')`. -/
def generated_places (places_yaml : String) : List String :=
  ((pySplit (Char.ofNat 10) places_yaml).filter (fun line => isPlaceLine line)).map
    (fun line => rstripColon (pyStrip line))

example : place_count "a:\n  labgrid-x-1:\nlabgrid-y::\nlabgrid-z" = 2 := rfl

example : generated_places "a:\n  labgrid-x-1:\nlabgrid-y::\nlabgrid-z" =
    ["labgrid-x-1", "labgrid-y"] := rfl

/-- The base-device names of the pairs of one lab's `device_instances` whose
alias list contains `a`, in stored order. -/
def labAliasBases (a : String) : List (String × List String) → List String
  | [] => []
  | (base_device, instances) :: rest =>
    if a ∈ instances then base_device :: labAliasBases a rest
    else labAliasBases a rest

/-- The base-device names of every (lab, base-device) pair whose alias list
contains `a`, in the exact iteration order of the instance-match phase: labs
in document order, then each lab's `device_instances` in stored order. -/
def aliasBases (a : String) : List (String × Lab) → List String
  | [] => []
  | (_, lab_config) :: rest =>
    labAliasBases a lab_config.device_instances ++ aliasBases a rest

/-- A successful association-list lookup comes from an entry of the list. -/
theorem mem_of_lookup_eq_some {α β : Type} [BEq α] [LawfulBEq α]
    {l : List (α × β)} {k : α} {v : β} (h : l.lookup k = some v) : (k, v) ∈ l := by
  obtain ⟨l₁, l₂, rfl, -⟩ := List.lookup_eq_some_iff.mp h
  simp

/-- When every base device registered for alias `a` in one lab is absent
from `devices`, the inner scan of that lab yields nothing: matching pairs
with a dangling base are skipped. -/
theorem searchLab_eq_none {devices : List (String × DeviceSpec)} {a : String}
    {di : List (String × List String)}
    (h : ∀ b ∈ labAliasBases a di, devices.lookup b = none) :
    searchLab devices a di = none := by
  induction di with
  | nil => rfl
  | cons pr rest ih =>
    obtain ⟨base_device, instances⟩ := pr
    by_cases hm : a ∈ instances
    · simp only [searchLab, if_pos hm]
      have hb : devices.lookup base_device = none := by
        refine h base_device ?_
        simp [labAliasBases, if_pos hm]
      rw [hb]
      refine ih fun b hbm => h b ?_
      simp only [labAliasBases, if_pos hm]
      exact List.mem_cons_of_mem _ hbm
    · simp only [searchLab, if_neg hm]
      refine ih fun b hbm => h b ?_
      simpa only [labAliasBases, if_neg hm] using hbm

/-- The inner scan of one lab returns the path of the first pair containing
the alias, provided that pair's base device is present in `devices`. -/
theorem searchLab_eq_some {devices : List (String × DeviceSpec)} {a b : String}
    {bs : List String} {cfg : DeviceSpec} {di : List (String × List String)}
    (h : labAliasBases a di = b :: bs) (hb : devices.lookup b = some cfg) :
    searchLab devices a di = some (targetPath cfg b) := by
  induction di with
  | nil => simp [labAliasBases] at h
  | cons pr rest ih =>
    obtain ⟨base_device, instances⟩ := pr
    by_cases hm : a ∈ instances
    · simp only [labAliasBases, if_pos hm] at h
      obtain ⟨rfl, -⟩ : base_device = b ∧ labAliasBases a rest = bs :=
        ⟨(List.cons.injEq ..).mp h |>.1, (List.cons.injEq ..).mp h |>.2⟩
      simp only [searchLab, if_pos hm, hb]
    · simp only [labAliasBases, if_neg hm] at h
      simp only [searchLab, if_neg hm]
      exact ih h

/-- When every (lab, base) pair registering alias `a` has a dangling base,
the whole instance-match phase yields nothing. -/
theorem searchInstances_eq_none {devices : List (String × DeviceSpec)} {a : String}
    {labs : List (String × Lab)}
    (h : ∀ b ∈ aliasBases a labs, devices.lookup b = none) :
    searchInstances devices a labs = none := by
  induction labs with
  | nil => rfl
  | cons lb rest ih =>
    obtain ⟨lab_name, lab_config⟩ := lb
    have h1 : searchLab devices a lab_config.device_instances = none := by
      refine searchLab_eq_none fun b hbm => h b ?_
      simp only [aliasBases]
      exact List.mem_append_left _ hbm
    simp only [searchInstances, h1]
    refine ih fun b hbm => h b ?_
    simp only [aliasBases]
    exact List.mem_append_right _ hbm

/-- The instance-match phase returns the path of the first (lab, base) pair
in iteration order whose alias list contains `a`, provided that pair's base
device is present in `devices`. -/
theorem searchInstances_eq_some {devices : List (String × DeviceSpec)}
    {a b : String} {bs : List String} {cfg : DeviceSpec} {labs : List (String × Lab)}
    (h : aliasBases a labs = b :: bs) (hb : devices.lookup b = some cfg) :
    searchInstances devices a labs = some (targetPath cfg b) := by
  induction labs with
  | nil => simp [aliasBases] at h
  | cons lb rest ih =>
    obtain ⟨lab_name, lab_config⟩ := lb
    simp only [aliasBases] at h
    cases hlb : labAliasBases a lab_config.device_instances with
    | nil =>
      rw [hlb, List.nil_append] at h
      have h1 : searchLab devices a lab_config.device_instances = none := by
        refine searchLab_eq_none fun b2 hbm => ?_
        rw [hlb] at hbm
        cases hbm
      simp only [searchInstances, h1]
      exact ih h
    | cons b2 bs2 =>
      rw [hlb, List.cons_append] at h
      have hb2 : b2 = b := ((List.cons.injEq ..).mp h).1
      have h1 : searchLab devices a lab_config.device_instances =
          some (targetPath cfg b) := searchLab_eq_some (hb2 ▸ hlb) hb
      simp only [searchInstances, h1]

/-- Membership in a comma-joined list: each element occurs verbatim in the
joined string. -/
theorem joinComma_contains {k : String} {l : List String} (h : k ∈ l) :
    ∃ p q, joinComma l = p ++ k ++ q := by
  induction l with
  | nil => cases h
  | cons s rest ih =>
    cases rest with
    | nil =>
      obtain rfl : k = s := by simpa using h
      exact ⟨"", "", by simp [joinComma]⟩
    | cons t rest2 =>
      rcases List.mem_cons.mp h with rfl | hmem
      · exact ⟨"", ", " ++ joinComma (t :: rest2), by simp [joinComma, String.append_assoc]⟩
      · obtain ⟨p, q, hpq⟩ := ih hmem
        refine ⟨s ++ ", " ++ p, q, ?_⟩
        simp only [joinComma, hpq, String.append_assoc]

/-- When the alias occurs in no pair of one lab's `device_instances`, that
lab contributes no base. -/
theorem labAliasBases_eq_nil {a : String} {di : List (String × List String)}
    (h : ∀ pr ∈ di, a ∉ pr.2) : labAliasBases a di = [] := by
  induction di with
  | nil => rfl
  | cons pr rest ih =>
    obtain ⟨base_device, instances⟩ := pr
    have hm : a ∉ instances := h (base_device, instances) (List.mem_cons_self ..)
    simp only [labAliasBases, if_neg hm]
    exact ih fun pr2 hpr2 => h pr2 (List.mem_cons_of_mem _ hpr2)

/-- When the alias occurs in no instance list of any lab, no (lab, base)
pair matches it. -/
theorem aliasBases_eq_nil {a : String} {labs : List (String × Lab)}
    (h : ∀ lb ∈ labs, ∀ pr ∈ lb.2.device_instances, a ∉ pr.2) :
    aliasBases a labs = [] := by
  induction labs with
  | nil => rfl
  | cons lb rest ih =>
    obtain ⟨lab_name, lab_config⟩ := lb
    simp only [aliasBases]
    rw [labAliasBases_eq_nil (h (lab_name, lab_config) (List.mem_cons_self ..)),
      List.nil_append]
    exact ih fun lb2 hlb2 => h lb2 (List.mem_cons_of_mem _ hlb2)

/-- Every value produced by the inner scan is the target path of some base
device actually present in `devices`. -/
theorem searchLab_some_spec {devices : List (String × DeviceSpec)} {a r : String}
    {di : List (String × List String)} (h : searchLab devices a di = some r) :
    ∃ b cfg, devices.lookup b = some cfg ∧ r = targetPath cfg b := by
  induction di with
  | nil => simp [searchLab] at h
  | cons pr rest ih =>
    obtain ⟨base_device, instances⟩ := pr
    by_cases hm : a ∈ instances
    · simp only [searchLab, if_pos hm] at h
      cases hl : devices.lookup base_device with
      | some cfg =>
        simp only [hl] at h
        exact ⟨base_device, cfg, hl, (Option.some.inj h).symm⟩
      | none =>
        simp only [hl] at h
        exact ih h
    · simp only [searchLab, if_neg hm] at h
      exact ih h

/-- Every value produced by the instance-match phase is the target path of
some base device actually present in `devices`. -/
theorem searchInstances_some_spec {devices : List (String × DeviceSpec)}
    {a r : String} {labs : List (String × Lab)}
    (h : searchInstances devices a labs = some r) :
    ∃ b cfg, devices.lookup b = some cfg ∧ r = targetPath cfg b := by
  induction labs with
  | nil => simp [searchInstances] at h
  | cons lb rest ih =>
    obtain ⟨lab_name, lab_config⟩ := lb
    simp only [searchInstances] at h
    cases hsl : searchLab devices a lab_config.device_instances with
    | some r2 =>
      simp only [hsl] at h
      obtain rfl : r2 = r := Option.some.inj h
      exact searchLab_some_spec hsl
    | none =>
      simp only [hsl] at h
      exact ih h

/-- A resolved stem is non-empty as soon as the fallback name is non-empty
and every string-valued `target_file` of the config is non-empty (a null
`target_file` prints as the non-empty text "None"). -/
theorem targetStem_ne_empty {cfg : DeviceSpec} {name : String} (h1 : name ≠ "")
    (h2 : ∀ t ∈ cfg.target_file, ∀ s ∈ t, s ≠ "") : targetStem cfg name ≠ "" := by
  cases htf : cfg.target_file with
  | none =>
    simp only [targetStem, htf]
    exact h1
  | some t =>
    cases t with
    | none =>
      simp only [targetStem, htf, pyFormatOptStr]
      decide
    | some s =>
      simp only [targetStem, htf, pyFormatOptStr]
      exact h2 (some s) htf s rfl

/-- Concrete topology of the spec's alias scenario: one canonical device
with no override, one lab registering one instance alias for it. -/
def tpLinksys : Topology :=
  ⟨[("linksys_e8450", ⟨none⟩)],
   [("labgrid-fcefyn", ⟨[("linksys_e8450", ["belkin_rt3200_1"])]⟩)]⟩

/-- Concrete topology of the spec's override scenario. -/
def tpFoo : Topology := ⟨[("foo", ⟨some (some "bar")⟩)], []⟩

/-- Concrete topology with the same alias registered under two (lab, base)
pairs, both bases present. -/
def tpDup : Topology :=
  ⟨[("d1", ⟨none⟩), ("d2", ⟨none⟩)],
   [("lab1", ⟨[("d1", ["x"])]⟩), ("lab2", ⟨[("d2", ["x"])]⟩)]⟩

/-- Concrete topology whose only registration of alias "x" is under a base
device absent from `devices`. -/
def tpDangling : Topology := ⟨[], [("lab1", ⟨[("ghost", ["x"])]⟩)]⟩

/-- Concrete topology with a present-but-empty `target_file` override. -/
def tpEmptyOverride : Topology := ⟨[("foo", ⟨some (some "")⟩)], []⟩

/-- C1: for every identifier that is a key of `topology.devices` whose spec
has no `target_file` entry, resolution succeeds with exactly
"targets/{d}.yaml", decided in the direct-match phase: the result is the
same whatever the labs component holds, so no lab's instance aliases are
consulted. -/
theorem resolve_direct_no_override (tp : Topology) (d : String) (cfg : DeviceSpec)
    (h1 : tp.devices.lookup d = some cfg) (h2 : cfg.target_file = none) :
    resolve_target_file tp d = Except.ok ("targets/" ++ d ++ ".yaml") ∧
    ∀ otherLabs : List (String × Lab),
      resolve_target_file ⟨tp.devices, otherLabs⟩ d =
        Except.ok ("targets/" ++ d ++ ".yaml") := by
  constructor
  · simp only [resolve_target_file, h1, targetPath, targetStem, h2]
  · intro otherLabs
    simp only [resolve_target_file, h1, targetPath, targetStem, h2]

/-- C1 witness: the direct-match theorem applied to the concrete topology
`tpLinksys` and its device without override. -/
theorem resolve_direct_no_override_witness :
    resolve_target_file tpLinksys "linksys_e8450" =
      Except.ok "targets/linksys_e8450.yaml" :=
  (resolve_direct_no_override tpLinksys "linksys_e8450" ⟨none⟩ rfl rfl).1

/-- C2: for every key of `topology.devices` whose spec carries an explicit
string `target_file` value `t`, resolution returns "targets/{t}.yaml"
whatever the requested name is. -/
theorem resolve_direct_with_override (tp : Topology) (n t : String)
    (cfg : DeviceSpec) (h1 : tp.devices.lookup n = some cfg)
    (h2 : cfg.target_file = some (some t)) :
    resolve_target_file tp n = Except.ok ("targets/" ++ t ++ ".yaml") := by
  simp only [resolve_target_file, h1, targetPath, targetStem, h2, pyFormatOptStr]

/-- C2 witness: the override theorem at the spec's scenario
`devices: \x7bfoo: \x7btarget_file: bar\x7d\x7d`, giving
"targets/bar.yaml". -/
theorem resolve_direct_with_override_witness :
    resolve_target_file tpFoo "foo" = Except.ok "targets/bar.yaml" :=
  resolve_direct_with_override tpFoo "foo" "bar" ⟨some (some "bar")⟩ rfl rfl

/-- C3: an alias registered under base device `b` in exactly one (lab,
base) pair, with `b` itself a canonical device, resolves to the same result
as `b`. -/
theorem resolve_alias_eq_base (tp : Topology) (a b : String) (cfg : DeviceSpec)
    (h1 : tp.devices.lookup a = none) (h2 : aliasBases a tp.labs = [b])
    (h3 : tp.devices.lookup b = some cfg) :
    resolve_target_file tp a = resolve_target_file tp b := by
  have hsi : searchInstances tp.devices a tp.labs = some (targetPath cfg b) :=
    searchInstances_eq_some h2 h3
  simp only [resolve_target_file, h1, hsi, h3]

/-- C3 witness: the alias theorem at the spec's scenario topology, where
both the alias and its base resolve to "targets/linksys_e8450.yaml". -/
theorem resolve_alias_eq_base_witness :
    resolve_target_file tpLinksys "belkin_rt3200_1" =
      resolve_target_file tpLinksys "linksys_e8450" ∧
    resolve_target_file tpLinksys "linksys_e8450" =
      Except.ok "targets/linksys_e8450.yaml" :=
  ⟨resolve_alias_eq_base tpLinksys "belkin_rt3200_1" "linksys_e8450" ⟨none⟩
    rfl rfl rfl, rfl⟩

/-- C4: an identifier that is neither a device key nor contained in any
alias list of any lab fails with the not-found diagnostic, whose text names
the unresolved identifier verbatim. -/
theorem resolve_unknown_identifier (tp : Topology) (name : String)
    (h1 : tp.devices.lookup name = none)
    (h2 : ∀ lb ∈ tp.labs, ∀ pr ∈ lb.2.device_instances, name ∉ pr.2) :
    resolve_target_file tp name = Except.error (notFoundMessage name) ∧
    ∃ p q, notFoundMessage name = p ++ name ++ q := by
  have h0 : aliasBases name tp.labs = [] := aliasBases_eq_nil h2
  have hsi : searchInstances tp.devices name tp.labs = none := by
    refine searchInstances_eq_none fun b hb => ?_
    rw [h0] at hb
    cases hb
  exact ⟨by simp only [resolve_target_file, h1, hsi],
    "Error: Device or instance \x27", "\x27 not found in labnet.yaml", rfl⟩

/-- C4 witness: the not-found theorem at the concrete topology `tpLinksys`
and the absent identifier "nope". -/
theorem resolve_unknown_identifier_witness :
    resolve_target_file tpLinksys "nope" = Except.error (notFoundMessage "nope") :=
  (resolve_unknown_identifier tpLinksys "nope" rfl (by decide)).1

/-- C5: an identifier that is not a device key and whose every matching
(lab, base) registration points at a base device absent from
`topology.devices` fails with the not-found diagnostic instead of falling
back to the base device's own name as a stem. -/
theorem resolve_dangling_alias (tp : Topology) (name : String)
    (h1 : tp.devices.lookup name = none)
    (_h2 : aliasBases name tp.labs ≠ [])
    (h3 : ∀ b ∈ aliasBases name tp.labs, tp.devices.lookup b = none) :
    resolve_target_file tp name = Except.error (notFoundMessage name) := by
  have hsi := searchInstances_eq_none h3
  simp only [resolve_target_file, h1, hsi]

/-- C5 witness: the dangling-alias theorem at the concrete topology whose
only registration of "x" is under the missing base "ghost". -/
theorem resolve_dangling_alias_witness :
    resolve_target_file tpDangling "x" = Except.error (notFoundMessage "x") :=
  resolve_dangling_alias tpDangling "x" rfl (by decide) (by decide)

/-- C6: when the same alias appears under two or more (lab, base-device)
pairs, resolution silently returns the path derived from the first matching
pair in stored iteration order (labs in document order, then each lab's
`device_instances` in stored order), with no ambiguity error. -/
theorem resolve_first_match_wins (tp : Topology) (a b : String)
    (bs : List String) (cfg : DeviceSpec)
    (h1 : tp.devices.lookup a = none)
    (h2 : aliasBases a tp.labs = b :: bs)
    (_h3 : bs ≠ [])
    (h4 : tp.devices.lookup b = some cfg) :
    resolve_target_file tp a = Except.ok (targetPath cfg b) := by
  have hsi := searchInstances_eq_some h2 h4
  simp only [resolve_target_file, h1, hsi]

/-- C6 witness: the first-match theorem at the concrete topology `tpDup`,
where alias "x" is registered under both "d1" (lab1) and "d2" (lab2) and
resolves to the first, "targets/d1.yaml". -/
theorem resolve_first_match_wins_witness :
    resolve_target_file tpDup "x" = Except.ok "targets/d1.yaml" :=
  resolve_first_match_wins tpDup "x" "d1" ["d2"] ⟨none⟩ rfl rfl (by decide) rfl

/-- C7: rendering with a lab name that is not a key of `topology.labs`
fails — for every template engine and timestamp, so before any output is
produced — with the diagnostic that enumerates, and hence contains, every
known lab name. -/
theorem generate_unknown_lab (tp : Topology) (lab_name : String)
    (h : tp.labs.lookup lab_name = none) (template : RenderContext → String)
    (now : Int) :
    generate_places_yaml tp lab_name template now =
      Except.error (unknownLabMessage tp lab_name) ∧
    ∀ k ∈ tp.labs.map Prod.fst, ∃ p q, unknownLabMessage tp lab_name = p ++ k ++ q := by
  constructor
  · simp [generate_places_yaml, h]
  · intro k hk
    obtain ⟨p, q, hpq⟩ := joinComma_contains hk
    refine ⟨"Error: Lab \x27" ++ lab_name ++ "\x27 not found in labnet.yaml\n" ++
      "Available labs: " ++ p, q, ?_⟩
    simp only [unknownLabMessage, hpq, String.append_assoc]

/-- C7 witness: the unknown-lab theorem at `tpLinksys` with the absent lab
name "labgrid-hsn". -/
theorem generate_unknown_lab_witness :
    generate_places_yaml tpLinksys "labgrid-hsn" (fun _ => "") 0 =
      Except.error (unknownLabMessage tpLinksys "labgrid-hsn") :=
  (generate_unknown_lab tpLinksys "labgrid-hsn" rfl (fun _ => "") 0).1

/-- C8 counterexample: with a present-but-empty `target_file`
(`devices: \x7bfoo: \x7btarget_file: ""\x7d\x7d`), resolution succeeds with
"targets/.yaml", whose stem is empty — no non-empty stem writes that path. -/
theorem stem_nonempty_counterexample :
    resolve_target_file tpEmptyOverride "foo" = Except.ok "targets/.yaml" ∧
    ¬ ∃ stem : String, stem ≠ "" ∧
      "targets/.yaml" = "targets/" ++ stem ++ ".yaml" := by
  refine ⟨rfl, ?_⟩
  rintro ⟨stem, hne, heq⟩
  apply hne
  have hlen := congrArg String.length heq
  rw [String.length_append, String.length_append] at hlen
  have h8 : ("targets/" : String).length = 8 := rfl
  have h5 : (".yaml" : String).length = 5 := rfl
  have h13 : ("targets/.yaml" : String).length = 13 := rfl
  rw [h8, h5, h13] at hlen
  have hzero : stem.length = 0 := by omega
  exact String.ext (List.length_eq_zero.mp hzero)

/-- C8 amended: every successful resolution produces a path of the shape
"targets/<stem>.yaml", and the stem is non-empty provided every device key
is non-empty and every string-valued `target_file` entry is non-empty (a
null entry yields the non-empty stem "None"); a present-but-empty
`target_file` instead yields the empty stem. -/
theorem stem_nonempty_amended (tp : Topology) (name r : String)
    (hwf : ∀ p ∈ tp.devices, p.1 ≠ "" ∧ ∀ t ∈ p.2.target_file, ∀ s ∈ t, s ≠ "")
    (h : resolve_target_file tp name = Except.ok r) :
    ∃ stem, stem ≠ "" ∧ r = "targets/" ++ stem ++ ".yaml" := by
  cases hl : tp.devices.lookup name with
  | some cfg =>
    simp only [resolve_target_file, hl] at h
    obtain rfl : targetPath cfg name = r := Except.ok.inj h
    have hw := hwf (name, cfg) (mem_of_lookup_eq_some hl)
    exact ⟨targetStem cfg name, targetStem_ne_empty hw.1 hw.2, rfl⟩
  | none =>
    simp only [resolve_target_file, hl] at h
    cases hsi : searchInstances tp.devices name tp.labs with
    | none =>
      simp only [hsi] at h
      exact Except.noConfusion h
    | some r2 =>
      simp only [hsi] at h
      obtain rfl : r2 = r := Except.ok.inj h
      obtain ⟨b, cfg, hlb, rfl⟩ := searchInstances_some_spec hsi
      have hw := hwf (b, cfg) (mem_of_lookup_eq_some hlb)
      exact ⟨targetStem cfg b, targetStem_ne_empty hw.1 hw.2, rfl⟩

/-- C8 amended witness: the amended theorem at the concrete topology
`tpLinksys`, whose device keys and overrides are all non-empty. -/
theorem stem_nonempty_amended_witness :
    ∃ stem, stem ≠ "" ∧
      ("targets/linksys_e8450.yaml" : String) = "targets/" ++ stem ++ ".yaml" :=
  stem_nonempty_amended tpLinksys "belkin_rt3200_1" "targets/linksys_e8450.yaml"
    (by
      intro p hp
      simp only [tpLinksys, List.mem_singleton] at hp
      subst hp
      exact ⟨by decide, fun t ht => absurd ht (Option.not_mem_none t)⟩)
    rfl

/-- C9: rendering a known lab hands the template engine a context binding
`labnet` to the full parsed topology, `inventory_hostname` to the selected
lab name, and `ansible_date_time.epoch` to the timestamp captured at render
start, and returns the engine's output verbatim. -/
theorem generate_known_lab_context (tp : Topology) (lab_name : String)
    (template : RenderContext → String) (now : Int)
    (h : (tp.labs.lookup lab_name).isSome = true) :
    generate_places_yaml tp lab_name template now =
      Except.ok (template
        { labnet := tp, inventory_hostname := lab_name,
          ansible_date_time := { epoch := now } }) := by
  simp [generate_places_yaml, h]

/-- C9 witness: the rendering theorem at `tpLinksys` with a template engine
that echoes `inventory_hostname`. -/
theorem generate_known_lab_context_witness :
    generate_places_yaml tpLinksys "labgrid-fcefyn"
      (fun ctx => ctx.inventory_hostname) 1700000000 =
      Except.ok "labgrid-fcefyn" :=
  generate_known_lab_context tpLinksys "labgrid-fcefyn"
    (fun ctx => ctx.inventory_hostname) 1700000000 rfl

/-- C10: the "Places generated" count and the "Generated places" listing
are computed by one and the same predicate over the rendered lines, so the
count always equals the number of listed entries. -/
theorem place_count_eq_generated_places_length (places_yaml : String) :
    place_count places_yaml = (generated_places places_yaml).length := by
  simp only [place_count, generated_places, List.length_map,
    List.countP_eq_length_filter]
